import Mathlib

/-!
# Greybus protocol adapters (HID / SDIO / USB) — shallow embedding

A shallow embedding of the Greybus protocol-adapter layer of
`subsys/greybus/{hid.c, sdio.c, usb.c}`:

* each operation handler becomes a pure Lean function from the adapter
  state, the request fields, and an environment record (the behaviour of
  the capability interface and of the response allocator) to a result
  record capturing the returned status code, the updated adapter state,
  whether the capability interface was invoked, and the size of the
  response allocation requested (if any);
* machine integers are `Nat`/`Int`; a narrowing conversion performed by
  the C code (for example an `int` capability return stored into a
  `uint16_t`) is written out as `% 65536`;
* the transport primitives (`gb_operation_alloc_response`,
  `gb_operation_get_request_payload_size`) and the few protocol-header
  constants that live in the greybus core headers (absent from the
  sources modelled here) are modelled from the specification, each with
  a doc comment saying so.
-/

namespace Greybus

/-- Greybus operation result codes used by the three adapters
(`GB_OP_SUCCESS`, `GB_OP_INVALID`, `GB_OP_NO_MEMORY`,
`GB_OP_UNKNOWN_ERROR`). -/
inductive GbOpResult where
  | success
  | invalid
  | noMemory
  | unknownError
  deriving DecidableEq, Repr

/-- Modelled from the spec: `gb_errno_to_op_result` is defined in the
greybus core, which is absent from the modelled sources.  Per the error
taxonomy, a nonzero host errno is translated to the nearest taxonomy
member and never to success; the theorems below rely only on the fact
that a nonzero errno never maps to `success`. -/
def gb_errno_to_op_result (err : Int) : GbOpResult :=
  if err = 0 then .success else .unknownError

theorem gb_errno_to_op_result_ne_success {err : Int} (h : err ≠ 0) :
    gb_errno_to_op_result err ≠ GbOpResult.success := by
  simp [gb_errno_to_op_result, h]

/-! ## SDIO adapter (`subsys/greybus/sdio.c`) -/

/-- `MAX_BLOCK_SIZE_0` -/
def MAX_BLOCK_SIZE_0 : Nat := 512
/-- `MAX_BLOCK_SIZE_1` -/
def MAX_BLOCK_SIZE_1 : Nat := 1024
/-- `MAX_BLOCK_SIZE_2` -/
def MAX_BLOCK_SIZE_2 : Nat := 2048

/-- `scale_max_sd_block_length` from `sdio.c`: the staircase that maps a
payload budget to the largest supported SD block length not exceeding
it (0 when even 512 does not fit). -/
def scale_max_sd_block_length (value : Nat) : Nat :=
  if value < MAX_BLOCK_SIZE_0 then 0
  else if value < MAX_BLOCK_SIZE_1 then MAX_BLOCK_SIZE_0
  else if value < MAX_BLOCK_SIZE_2 then MAX_BLOCK_SIZE_1
  else MAX_BLOCK_SIZE_2

/-- `sd_rsp_type` values the adapter selects from the request's
response flags (`SD_RSP_TYPE_NONE/R1/R1b/R2` of the host SDHC API). -/
inductive SdRspType where
  | rspNone
  | r1
  | r1b
  | r2
  deriving DecidableEq, Repr

/-- The fields of `struct sdhc_command` that `sdio.c` fills in before
handing the command to the host (`opcode`, `arg`, `response_type`).
The host-written `response` words are part of the environment. -/
structure SdhcCommand where
  opcode : Nat
  arg : Nat
  response_type : SdRspType
  deriving DecidableEq, Repr

/-- `struct gb_sdio_info`: the SDIO adapter's private state.  The
`cport` and device handle play no role in the modelled behaviour. -/
structure GbSdioInfo where
  deferred_cmd : SdhcCommand
  has_deferred_cmd : Bool
  deriving DecidableEq, Repr

/-- Modelled from the spec: greybus SDIO command flag bits
(`GB_SDIO_RSP_PRESENT`, `GB_SDIO_RSP_136`, `GB_SDIO_RSP_BUSY`) from the
protocol header absent from the modelled sources. -/
def GB_SDIO_RSP_PRESENT : Nat := 0x01
def GB_SDIO_RSP_136 : Nat := 0x02
def GB_SDIO_RSP_BUSY : Nat := 0x10

/-- Modelled from the spec: greybus SDIO transfer direction flag bits
(`GB_SDIO_DATA_WRITE`, `GB_SDIO_DATA_READ`) from the protocol header
absent from the modelled sources. -/
def GB_SDIO_DATA_WRITE : Nat := 0x01
def GB_SDIO_DATA_READ : Nat := 0x02

/-- Modelled from the spec: `sizeof(struct gb_sdio_command_request)`
(the protocol-defined minimum payload for a `command` operation); the
theorems depend only on requests being compared against this constant. -/
def gb_sdio_command_request_size : Nat := 11

/-- Modelled from the spec: `sizeof(struct gb_sdio_transfer_request)`
(the protocol-defined minimum payload for a `transfer` operation). -/
def gb_sdio_transfer_request_size : Nat := 5

/-- `sizeof(struct gb_sdio_transfer_response)`: the fixed transfer
response header — `data_blocks` and `data_blksz`, two little-endian
16-bit fields, followed by the variable read data. -/
def gb_sdio_transfer_response_size : Nat := 4

/-- Modelled from the spec: `sizeof(struct gb_sdio_command_response)`
(four raw 32-bit response words). -/
def gb_sdio_command_response_size : Nat := 16

/-- Modelled from the spec: `sizeof(struct gb_sdio_set_ios_request)`
(the protocol-defined minimum payload for a `set_ios` operation). -/
def gb_sdio_set_ios_request_size : Nat := 10

/-- Modelled from the spec: `sizeof(struct gb_sdio_get_caps_response)`. -/
def gb_sdio_get_caps_response_size : Nat := 20

/-- The request fields `gb_sdio_protocol_command` reads, together with
the payload size the transport reports for the operation
(`gb_operation_get_request_payload_size`). -/
structure SdioCommandRequest where
  cmd : Nat
  cmd_flags : Nat
  cmd_arg : Nat
  data_blocks : Nat
  payload_size : Nat
  deriving DecidableEq, Repr

/-- The request fields `gb_sdio_protocol_transfer` reads, with the
transport-reported payload size. -/
structure SdioTransferRequest where
  data_flags : Nat
  data_blocks : Nat
  data_blksz : Nat
  payload_size : Nat
  deriving DecidableEq, Repr

/-- Environment of one SDIO handler invocation: the return value of
`sdhc_request` and the four response words the host writes into
`cmd.response`, plus whether `gb_operation_alloc_response` succeeds
(the allocator is external; per the spec it yields a buffer or
`NoMemory`). -/
structure SdioEnv where
  sdhcRet : Int
  r0 : Nat
  r1 : Nat
  r2 : Nat
  r3 : Nat
  allocOk : Bool
  deriving DecidableEq, Repr

/-- Result of `gb_sdio_protocol_command`: status, updated adapter
state, whether `sdhc_request` was invoked, the size passed to
`gb_operation_alloc_response` (if reached), and the four response words
written into the response (if the response was filled). -/
structure SdioCommandResult where
  status : GbOpResult
  info : GbSdioInfo
  invoked : Bool
  alloc : Option Nat
  resp : Option (Nat × Nat × Nat × Nat)
  deriving DecidableEq, Repr

/-- The response-type selection of `gb_sdio_protocol_command` (the
nested `cmd_flags` tests). -/
def sdio_decode_rsp_type (cmd_flags : Nat) : SdRspType :=
  if cmd_flags &&& GB_SDIO_RSP_PRESENT ≠ 0 then
    if cmd_flags &&& GB_SDIO_RSP_136 ≠ 0 then .r2
    else if cmd_flags &&& GB_SDIO_RSP_BUSY ≠ 0 then .r1b
    else .r1
  else .rspNone

/-- The `struct sdhc_command` built by `gb_sdio_protocol_command` from
the request (`cmd.opcode`, `cmd.arg = le32(cmd_arg)`, response type
from the flags). -/
def sdio_build_cmd (req : SdioCommandRequest) : SdhcCommand :=
  { opcode := req.cmd
    arg := req.cmd_arg % 4294967296
    response_type := sdio_decode_rsp_type req.cmd_flags }

/-- `gb_sdio_protocol_command` from `sdio.c`: short payloads are
`Invalid`; a command with `data_blocks > 0` is stored as the deferred
command (pending flag set) and answered with the synthesized R1
"ready for data" word `0x00000900`; a command with `data_blocks == 0`
is executed immediately via `sdhc_request` and answered with the four
host response words. -/
def gb_sdio_protocol_command (info : GbSdioInfo) (env : SdioEnv)
    (req : SdioCommandRequest) : SdioCommandResult :=
  if req.payload_size < gb_sdio_command_request_size then
    ⟨.invalid, info, false, none, none⟩
  else
    let data_blocks := req.data_blocks % 65536
    let cmd := sdio_build_cmd req
    if data_blocks > 0 then
      let info' : GbSdioInfo := { deferred_cmd := cmd, has_deferred_cmd := true }
      if env.allocOk then
        ⟨.success, info', false, some gb_sdio_command_response_size,
          some (0x00000900, 0, 0, 0)⟩
      else
        ⟨.noMemory, info', false, some gb_sdio_command_response_size, none⟩
    else
      if env.sdhcRet ≠ 0 then
        ⟨gb_errno_to_op_result env.sdhcRet, info, true, none, none⟩
      else if env.allocOk then
        ⟨.success, info, true, some gb_sdio_command_response_size,
          some (env.r0, env.r1, env.r2, env.r3)⟩
      else
        ⟨.noMemory, info, true, some gb_sdio_command_response_size, none⟩

/-- Result of `gb_sdio_protocol_transfer`: status, updated adapter
state, whether `sdhc_request` was invoked, the size passed to
`gb_operation_alloc_response` (if reached), and the `(data_blocks,
data_blksz)` pair written into the response header (if filled). -/
structure SdioTransferResult where
  status : GbOpResult
  info : GbSdioInfo
  invoked : Bool
  alloc : Option Nat
  resp : Option (Nat × Nat)
  deriving DecidableEq, Repr

/-- `gb_sdio_protocol_transfer` from `sdio.c`.  Control flow mirrors
the source: payload-size check, pending-command check, then the
direction dispatch.  On a write the host is invoked first and the
response allocated afterwards; on a read the response (header plus
`blocks*blksz` data bytes) is allocated first and the host then writes
into it.  The source's `if (!request->data)` tests the address of the
request's trailing inline data array, which is never null, so that
branch is not reachable and is not modelled. -/
def gb_sdio_protocol_transfer (info : GbSdioInfo) (env : SdioEnv)
    (req : SdioTransferRequest) : SdioTransferResult :=
  if req.payload_size < gb_sdio_transfer_request_size then
    ⟨.invalid, info, false, none, none⟩
  else
    let blocks := req.data_blocks % 65536
    let blksz := req.data_blksz % 65536
    if info.has_deferred_cmd = false then
      ⟨.invalid, info, false, none, none⟩
    else if req.data_flags &&& GB_SDIO_DATA_WRITE ≠ 0 then
      if env.sdhcRet ≠ 0 then
        ⟨gb_errno_to_op_result env.sdhcRet,
          { info with has_deferred_cmd := false }, true, none, none⟩
      else if env.allocOk then
        ⟨.success, { info with has_deferred_cmd := false }, true,
          some gb_sdio_transfer_response_size, some (blocks, blksz)⟩
      else
        ⟨.noMemory, info, true, some gb_sdio_transfer_response_size, none⟩
    else if req.data_flags &&& GB_SDIO_DATA_READ ≠ 0 then
      if env.allocOk = false then
        ⟨.noMemory, info, false,
          some (gb_sdio_transfer_response_size + blocks * blksz), none⟩
      else if env.sdhcRet ≠ 0 then
        ⟨gb_errno_to_op_result env.sdhcRet,
          { info with has_deferred_cmd := false }, true,
          some (gb_sdio_transfer_response_size + blocks * blksz), none⟩
      else
        ⟨.success, { info with has_deferred_cmd := false }, true,
          some (gb_sdio_transfer_response_size + blocks * blksz),
          some (blocks, blksz)⟩
    else
      ⟨.invalid, info, false, none, none⟩

/-- Modelled from the spec: greybus SDIO capability bits that
`gb_sdio_protocol_get_capabilities` sets from the host capabilities
(protocol header absent from the modelled sources). -/
def GB_SDIO_CAP_4_BIT_DATA : Nat := 0x001
def GB_SDIO_CAP_8_BIT_DATA : Nat := 0x002
def GB_SDIO_CAP_MMC_HS : Nat := 0x004
def GB_SDIO_CAP_SD_HS : Nat := 0x008
def GB_SDIO_CAP_HS200_1_2V : Nat := 0x400

/-- Environment of one `get_capabilities` invocation: the result of
`sdhc_get_host_props` (return code and the host capability bits and
frequencies the handler reads) and the allocator outcome. -/
structure SdioCapsEnv where
  propsRet : Int
  bus4 : Bool
  bus8 : Bool
  highSpeed : Bool
  vol330 : Bool
  f_min : Nat
  f_max : Nat
  allocOk : Bool
  deriving DecidableEq, Repr

/-- Result of `gb_sdio_protocol_get_capabilities`: status, requested
allocation size, and the response fields the handler writes. -/
structure SdioCapsResult where
  status : GbOpResult
  alloc : Option Nat
  caps : Option Nat
  max_blk_size : Option Nat
  max_blk_count : Option Nat
  deriving DecidableEq, Repr

/-- The capability-bit mapping of `gb_sdio_protocol_get_capabilities`
("Map Zephyr Caps to Greybus Caps - Best Effort"). -/
def sdio_map_caps (env : SdioCapsEnv) : Nat :=
  (if env.bus4 then GB_SDIO_CAP_4_BIT_DATA else 0) |||
  (if env.bus8 then GB_SDIO_CAP_8_BIT_DATA else 0) |||
  (if env.highSpeed then GB_SDIO_CAP_SD_HS ||| GB_SDIO_CAP_MMC_HS else 0) |||
  (if env.vol330 then GB_SDIO_CAP_HS200_1_2V else 0)

/-- The 16-bit payload-budget computation of
`gb_sdio_protocol_get_capabilities`:
`(uint16_t)(GB_MAX_PAYLOAD_SIZE - sizeof(struct
gb_sdio_transfer_response))`, written as arithmetic modulo 2^16. -/
def sdio_caps_budget (maxPayload : Nat) : Nat :=
  (maxPayload + 65536 - gb_sdio_transfer_response_size) % 65536

/-- `gb_sdio_protocol_get_capabilities` from `sdio.c`, parameterised by
`GB_MAX_PAYLOAD_SIZE` (`maxPayload`), a greybus-core constant absent
from the modelled sources.  The handler queries the host properties,
allocates the response, computes
`max_data_size = (uint16_t)(GB_MAX_PAYLOAD_SIZE - sizeof(struct
gb_sdio_transfer_response))` scaled by `scale_max_sd_block_length`,
fails `Invalid` when the scale is 0, and otherwise reports
`max_blk_size = 512` and `max_blk_count = max_data_size / 512`. -/
def gb_sdio_protocol_get_capabilities (maxPayload : Nat)
    (env : SdioCapsEnv) : SdioCapsResult :=
  if env.propsRet ≠ 0 then
    ⟨gb_errno_to_op_result env.propsRet, none, none, none, none⟩
  else if env.allocOk = false then
    ⟨.noMemory, some gb_sdio_get_caps_response_size, none, none, none⟩
  else
    let max_data_size :=
      scale_max_sd_block_length (sdio_caps_budget maxPayload)
    if max_data_size = 0 then
      ⟨.invalid, some gb_sdio_get_caps_response_size, none, none, none⟩
    else
      ⟨.success, some gb_sdio_get_caps_response_size,
        some (sdio_map_caps env), some 512, some (max_data_size / 512)⟩

/-- Modelled from the spec: greybus SDIO `set_ios` request enumeration
values (protocol header absent from the modelled sources). -/
def GB_SDIO_BUSMODE_OPENDRAIN : Nat := 0x00
def GB_SDIO_BUSMODE_PUSHPULL : Nat := 0x01
def GB_SDIO_POWER_OFF : Nat := 0x00
def GB_SDIO_POWER_UP : Nat := 0x01
def GB_SDIO_POWER_ON : Nat := 0x02
def GB_SDIO_BUS_WIDTH_1 : Nat := 0x00
def GB_SDIO_BUS_WIDTH_4 : Nat := 0x02
def GB_SDIO_BUS_WIDTH_8 : Nat := 0x03
def GB_SDIO_TIMING_LEGACY : Nat := 0x00
def GB_SDIO_TIMING_MMC_HS : Nat := 0x01
def GB_SDIO_TIMING_SD_HS : Nat := 0x02
def GB_SDIO_SIGNAL_VOLTAGE_330 : Nat := 0x00
def GB_SDIO_SIGNAL_VOLTAGE_180 : Nat := 0x01
def GB_SDIO_SIGNAL_VOLTAGE_120 : Nat := 0x02

/-- The host SDHC I/O enumerations `set_ios` maps into
(`struct sdhc_io` fields). -/
inductive SdhcBusMode where
  | openDrain
  | pushPull
  deriving DecidableEq, Repr

inductive SdhcPower where
  | off
  | on
  deriving DecidableEq, Repr

inductive SdhcBusWidth where
  | w1
  | w4
  | w8
  deriving DecidableEq, Repr

inductive SdhcTiming where
  | legacy
  | hs
  deriving DecidableEq, Repr

inductive SdVoltage where
  | v33
  | v18
  | v12
  deriving DecidableEq, Repr

/-- The `struct sdhc_io` record `gb_sdio_protocol_set_ios` builds. -/
structure SdhcIoRecord where
  clock : Nat
  bus_mode : SdhcBusMode
  power_mode : SdhcPower
  bus_width : SdhcBusWidth
  timing : SdhcTiming
  signal_voltage : SdVoltage
  deriving DecidableEq, Repr

/-- The request fields `gb_sdio_protocol_set_ios` reads, with the
transport-reported payload size. -/
structure SdioSetIosRequest where
  clock : Nat
  bus_mode : Nat
  power_mode : Nat
  bus_width : Nat
  timing : Nat
  signal_voltage : Nat
  payload_size : Nat
  deriving DecidableEq, Repr

/-- The field-by-field decoding of `gb_sdio_protocol_set_ios` (the five
`switch` statements, each with its explicit default). -/
def sdio_decode_ios (req : SdioSetIosRequest) : SdhcIoRecord :=
  { clock := req.clock % 4294967296
    bus_mode :=
      if req.bus_mode = GB_SDIO_BUSMODE_OPENDRAIN then .openDrain
      else if req.bus_mode = GB_SDIO_BUSMODE_PUSHPULL then .pushPull
      else .pushPull
    power_mode :=
      if req.power_mode = GB_SDIO_POWER_OFF then .off
      else if req.power_mode = GB_SDIO_POWER_UP then .on
      else if req.power_mode = GB_SDIO_POWER_ON then .on
      else .off
    bus_width :=
      if req.bus_width = GB_SDIO_BUS_WIDTH_1 then .w1
      else if req.bus_width = GB_SDIO_BUS_WIDTH_4 then .w4
      else if req.bus_width = GB_SDIO_BUS_WIDTH_8 then .w8
      else .w1
    timing :=
      if req.timing = GB_SDIO_TIMING_LEGACY then .legacy
      else if req.timing = GB_SDIO_TIMING_SD_HS then .hs
      else if req.timing = GB_SDIO_TIMING_MMC_HS then .hs
      else .legacy
    signal_voltage :=
      if req.signal_voltage = GB_SDIO_SIGNAL_VOLTAGE_330 then .v33
      else if req.signal_voltage = GB_SDIO_SIGNAL_VOLTAGE_180 then .v18
      else if req.signal_voltage = GB_SDIO_SIGNAL_VOLTAGE_120 then .v12
      else .v33 }

/-- Result of `gb_sdio_protocol_set_ios`: status, whether `sdhc_set_io`
was invoked, and the I/O record passed to it. -/
structure SdioSetIosResult where
  status : GbOpResult
  invoked : Bool
  appliedIos : Option SdhcIoRecord
  deriving DecidableEq, Repr

/-- `gb_sdio_protocol_set_ios` from `sdio.c`: short payloads are
`Invalid`; otherwise the decoded I/O settings are applied via a single
`sdhc_set_io` call whose error is translated by
`gb_errno_to_op_result`.  `setIoRet` is the host's return value. -/
def gb_sdio_protocol_set_ios (setIoRet : Int)
    (req : SdioSetIosRequest) : SdioSetIosResult :=
  if req.payload_size < gb_sdio_set_ios_request_size then
    ⟨.invalid, false, none⟩
  else if setIoRet ≠ 0 then
    ⟨gb_errno_to_op_result setIoRet, true, some (sdio_decode_ios req)⟩
  else
    ⟨.success, true, some (sdio_decode_ios req)⟩

/-! ## HID adapter (`subsys/greybus/hid.c`) -/

/-- `struct gb_hid_info`: the HID adapter state the handlers read and
write.  Only the cached report-descriptor length is mutated by the
modelled handlers; the queue of the report pipeline is modelled
separately. -/
structure GbHidInfo where
  report_desc_len : Nat
  deriving DecidableEq, Repr

/-- The adapter state right after `gb_hid_init`: the info block is
zeroed with `memset`, so the cached report-descriptor length starts at
0 (no length cached). -/
def gb_hid_init_info : GbHidInfo := { report_desc_len := 0 }

/-- `struct hid_descriptor` (`hid-gb.h`): the fixed-layout descriptor
the driver capability fills in. -/
structure HidDescriptor where
  length : Nat
  report_desc_length : Nat
  hid_version : Nat
  product_id : Nat
  vendor_id : Nat
  country_code : Nat
  deriving DecidableEq, Repr

/-- Modelled from the spec: `sizeof(struct gb_hid_desc_response)`
(protocol header absent from the modelled sources). -/
def gb_hid_desc_response_size : Nat := 10

/-- Modelled from the spec: `sizeof(struct gb_hid_get_report_request)`
(the protocol-defined minimum payload: report type and report id). -/
def gb_hid_get_report_request_size : Nat := 2

/-- Modelled from the spec: `sizeof(struct gb_hid_set_report_request)`
(report type and report id, followed by the inline report bytes). -/
def gb_hid_set_report_request_size : Nat := 2

/-- Environment of one `get_descriptor` invocation: presence of the
bundle, the private info block, the device, the API table and its
`get_descriptor` entry; the capability call's return value and the
descriptor it fills; and the allocator outcome. -/
structure HidGetDescEnv where
  bundlePresent : Bool
  infoPresent : Bool
  devPresent : Bool
  apiPresent : Bool
  entryPresent : Bool
  callRet : Int
  desc : HidDescriptor
  allocOk : Bool
  deriving DecidableEq, Repr

/-- Result of `gb_hid_get_descriptor`: status, requested allocation
size, and the updated adapter state. -/
structure HidGetDescResult where
  status : GbOpResult
  alloc : Option Nat
  info : GbHidInfo
  deriving DecidableEq, Repr

/-- `gb_hid_get_descriptor` from `hid.c`: null checks map to
`UnknownError`; a failing capability call is `UnknownError`; on success
the response is filled and the report-descriptor length is cached in
the adapter state. -/
def gb_hid_get_descriptor (info : GbHidInfo) (env : HidGetDescEnv) :
    HidGetDescResult :=
  if env.bundlePresent = false then ⟨.unknownError, none, info⟩
  else if env.infoPresent = false ∨ env.devPresent = false then
    ⟨.unknownError, none, info⟩
  else if env.apiPresent = false ∨ env.entryPresent = false then
    ⟨.unknownError, none, info⟩
  else if env.callRet ≠ 0 then ⟨.unknownError, none, info⟩
  else if env.allocOk = false then
    ⟨.noMemory, some gb_hid_desc_response_size, info⟩
  else
    ⟨.success, some gb_hid_desc_response_size,
      { report_desc_len := env.desc.report_desc_length }⟩

/-- Environment of one `get_report_descriptor` invocation. -/
structure HidReportDescEnv where
  bundlePresent : Bool
  infoPresent : Bool
  devPresent : Bool
  apiPresent : Bool
  entryPresent : Bool
  callRet : Int
  allocOk : Bool
  deriving DecidableEq, Repr

/-- Result of `gb_hid_get_report_descriptor`: status and requested
allocation size. -/
structure HidReportDescResult where
  status : GbOpResult
  alloc : Option Nat
  deriving DecidableEq, Repr

/-- `gb_hid_get_report_descriptor` from `hid.c`: null checks map to
`UnknownError`; the response is allocated with the currently cached
report-descriptor length (whatever it is — the source performs no
check that a length has been cached) and filled by the capability
call. -/
def gb_hid_get_report_descriptor (info : GbHidInfo)
    (env : HidReportDescEnv) : HidReportDescResult :=
  if env.bundlePresent = false then ⟨.unknownError, none⟩
  else if env.infoPresent = false ∨ env.devPresent = false then
    ⟨.unknownError, none⟩
  else if env.apiPresent = false ∨ env.entryPresent = false then
    ⟨.unknownError, none⟩
  else if env.allocOk = false then ⟨.noMemory, some info.report_desc_len⟩
  else if env.callRet ≠ 0 then ⟨.unknownError, some info.report_desc_len⟩
  else ⟨.success, some info.report_desc_len⟩

/-- The request fields `gb_hid_get_report` reads, with the
transport-reported payload size. -/
structure HidGetReportRequest where
  report_type : Nat
  report_id : Nat
  payload_size : Nat
  deriving DecidableEq, Repr

/-- Environment of one `get_report` invocation: presence flags for the
info block, device, API table and the two capability entries; the
`get_report_length` return value (a C `int`); the `get_report` return
value; and the allocator outcome. -/
structure HidGetReportEnv where
  infoPresent : Bool
  devPresent : Bool
  apiPresent : Bool
  getReportLengthPresent : Bool
  getReportLengthRet : Int
  getReportPresent : Bool
  getReportRet : Int
  allocOk : Bool
  deriving DecidableEq, Repr

/-- Result of `gb_hid_get_report`: status and requested allocation
size. -/
structure HidGetReportResult where
  status : GbOpResult
  alloc : Option Nat
  deriving DecidableEq, Repr

/-- `gb_hid_get_report` from `hid.c`: short payloads are `Invalid`;
a missing capability entry or a non-positive `get_report_length`
return is `UnknownError`; the positive `int` length is stored into a
`uint16_t` (truncation modulo 2^16), one prefix byte is added when the
report id is nonzero (again in `uint16_t` arithmetic), a response of
exactly that length is allocated, and the capability `get_report`
fills it. -/
def gb_hid_get_report (env : HidGetReportEnv)
    (req : HidGetReportRequest) : HidGetReportResult :=
  if req.payload_size < gb_hid_get_report_request_size then
    ⟨.invalid, none⟩
  else if env.infoPresent = false ∨ env.devPresent = false then
    ⟨.unknownError, none⟩
  else if env.apiPresent = false then ⟨.unknownError, none⟩
  else if env.getReportLengthPresent = false then ⟨.unknownError, none⟩
  else if env.getReportLengthRet ≤ 0 then ⟨.unknownError, none⟩
  else
    let report_len := env.getReportLengthRet.toNat % 65536
    let report_len :=
      if req.report_id > 0 then (report_len + 1) % 65536 else report_len
    if env.allocOk = false then ⟨.noMemory, some report_len⟩
    else if env.getReportPresent = false then
      ⟨.unknownError, some report_len⟩
    else if env.getReportRet ≠ 0 then ⟨.unknownError, some report_len⟩
    else ⟨.success, some report_len⟩

/-- The request fields `gb_hid_set_report` reads, with the
transport-reported payload size. -/
structure HidSetReportRequest where
  report_type : Nat
  report_id : Nat
  payload_size : Nat
  deriving DecidableEq, Repr

/-- Environment of one `set_report` invocation. -/
structure HidSetReportEnv where
  infoPresent : Bool
  devPresent : Bool
  apiPresent : Bool
  getReportLengthPresent : Bool
  setReportPresent : Bool
  getReportLengthRet : Int
  setReportRet : Int
  deriving DecidableEq, Repr

/-- Result of `gb_hid_set_report`: status, whether the capability
`set_report` was invoked, and the length it was invoked with. -/
structure HidSetReportResult where
  status : GbOpResult
  setReportInvoked : Bool
  setReportLen : Option Nat
  deriving DecidableEq, Repr

/-- `gb_hid_set_report` from `hid.c`: short payloads are `Invalid`;
missing capability entries are `UnknownError`.  The source declares
`uint16_t report_len` and assigns the `int` return of
`get_report_length` to it — the C conversion reduces the value modulo
2^16 — and only then tests `report_len <= 0`, which on the unsigned
variable holds exactly when the truncated value is 0.  A surviving
value is forwarded to the capability `set_report`. -/
def gb_hid_set_report (env : HidSetReportEnv)
    (req : HidSetReportRequest) : HidSetReportResult :=
  if req.payload_size < gb_hid_set_report_request_size then
    ⟨.invalid, false, none⟩
  else if env.infoPresent = false ∨ env.devPresent = false then
    ⟨.unknownError, false, none⟩
  else if env.apiPresent = false ∨ env.getReportLengthPresent = false ∨
      env.setReportPresent = false then
    ⟨.unknownError, false, none⟩
  else
    let report_len := (env.getReportLengthRet % 65536).toNat
    if report_len ≤ 0 then ⟨.unknownError, false, none⟩
    else if env.setReportRet ≠ 0 then
      ⟨.unknownError, true, some report_len⟩
    else ⟨.success, true, some report_len⟩

/-! ### HID report pipeline (callback side) -/

/-- `MAX_REPORT_OPERATIONS`: the capacity of the bounded report
queue. -/
def MAX_REPORT_OPERATIONS : Nat := 5

/-- The fixed capacity of the inline buffer of `struct hid_msg_data`
(`uint8_t data[256]`). -/
def hid_msg_data_capacity : Nat := 256

/-- `struct hid_msg_data`: one queued report message. -/
structure HidMsgData where
  report_type : Nat
  len : Nat
  data : List Nat
  deriving DecidableEq, Repr

/-- Modelled from the spec: `k_msgq_put` with `K_NO_WAIT` on a bounded
queue (the queue primitive is the kernel's, absent from the modelled
sources) — a non-blocking enqueue that appends when there is room and
drops the message when the queue is full. -/
def k_msgq_put_nowait (cap : Nat) (q : List HidMsgData)
    (m : HidMsgData) : List HidMsgData :=
  if q.length < cap then q ++ [m] else q

/-- `hid_event_callback_routine` from `hid.c`: a report longer than the
256-byte inline buffer is rejected with `-EINVAL` (= -22) before any
enqueue; otherwise the message is copied and enqueued non-blockingly
(drop-on-full), and the callback returns 0.  The result pairs the
callback's return value with the queue after the call. -/
def hid_event_callback_routine (q : List HidMsgData) (report_type : Nat)
    (report : List Nat) : Int × List HidMsgData :=
  if report.length > hid_msg_data_capacity then (-22, q)
  else
    (0, k_msgq_put_nowait MAX_REPORT_OPERATIONS q
      { report_type := report_type, len := report.length, data := report })

/-! ## USB adapter (`subsys/greybus/usb.c`) -/

/-- Modelled from the spec:
`sizeof(struct gb_usb_hub_control_request)` (four 16-bit setup-packet
fields; protocol header absent from the modelled sources). -/
def gb_usb_hub_control_request_size : Nat := 8

/-- Modelled from the spec: the fixed header size of
`struct gb_usb_hub_control_response` (protocol header absent from the
modelled sources); the stated properties do not depend on its value. -/
def gb_usb_hub_control_response_size : Nat := 2

/-- The request fields `gb_usb_hub_control` reads, with the
transport-reported payload size. -/
structure UsbHubControlRequest where
  typeReq : Nat
  wValue : Nat
  wIndex : Nat
  wLength : Nat
  payload_size : Nat
  deriving DecidableEq, Repr

/-- The `struct usb_setup_packet` built by `gb_usb_hub_control`. -/
structure UsbSetupPacket where
  bmRequestType : Nat
  bRequest : Nat
  wValue : Nat
  wIndex : Nat
  wLength : Nat
  deriving DecidableEq, Repr

/-- The setup-packet decoding of `gb_usb_hub_control`: all wire fields
are little-endian 16-bit; `typeReq` splits into the low request-type
byte and the high request byte. -/
def usb_decode_setup (req : UsbHubControlRequest) : UsbSetupPacket :=
  { bmRequestType := (req.typeReq % 65536) &&& 0xFF
    bRequest := (req.typeReq % 65536) >>> 8
    wValue := req.wValue % 65536
    wIndex := req.wIndex % 65536
    wLength := req.wLength % 65536 }

/-- Result of `gb_usb_hub_control`: status and requested allocation
size. -/
structure UsbHubControlResult where
  status : GbOpResult
  alloc : Option Nat
  deriving DecidableEq, Repr

/-- `gb_usb_hub_control` from `usb.c`: short payloads are `Invalid`;
otherwise the setup packet is decoded, a response of the fixed header
size plus the declared `wLength` is allocated, and — the root-hub
control capability being an acknowledged stub — the handler sets
`ret = -ENOTSUP` and reports the unsupported operation as
`GB_OP_UNKNOWN_ERROR`, never success. -/
def gb_usb_hub_control (allocOk : Bool) (req : UsbHubControlRequest) :
    UsbHubControlResult :=
  if req.payload_size < gb_usb_hub_control_request_size then
    ⟨.invalid, none⟩
  else
    let setup := usb_decode_setup req
    if allocOk = false then
      ⟨.noMemory, some (gb_usb_hub_control_response_size + setup.wLength)⟩
    else
      ⟨.unknownError, some (gb_usb_hub_control_response_size + setup.wLength)⟩

/-! ## Spec-side characterizations (for refinement comparisons) -/

/-- From the spec's words (claim C5): "the largest of {512, 1024, 2048}
strictly below the channel's remaining payload budget", 0 when no
element is strictly below. -/
def spec_largest_block_strictly_below (v : Nat) : Nat :=
  if 2048 < v then 2048
  else if 1024 < v then 1024
  else if 512 < v then 512
  else 0

/-- The amended characterization: the largest element of
{512, 1024, 2048} that is at most `v`, 0 when even 512 exceeds `v`. -/
def spec_largest_block_at_most (v : Nat) : Nat :=
  if 2048 ≤ v then 2048
  else if 1024 ≤ v then 1024
  else if 512 ≤ v then 512
  else 0

theorem scale_eq_largest_at_most (v : Nat) :
    scale_max_sd_block_length v = spec_largest_block_at_most v := by
  simp only [scale_max_sd_block_length, spec_largest_block_at_most,
    MAX_BLOCK_SIZE_0, MAX_BLOCK_SIZE_1, MAX_BLOCK_SIZE_2]
  split_ifs <;> omega

/-! ## Helper lemmas -/

/-- A transfer request against an adapter with no deferred command is
rejected untouched: `Invalid`, no host call, no allocation, state
unchanged (this covers the short-payload case as well, which yields the
same rejection result). -/
theorem transfer_no_pending (info : GbSdioInfo) (env : SdioEnv)
    (req : SdioTransferRequest) (hp : info.has_deferred_cmd = false) :
    gb_sdio_protocol_transfer info env req =
      ⟨.invalid, info, false, none, none⟩ := by
  by_cases hsz : req.payload_size < gb_sdio_transfer_request_size <;>
    simp [gb_sdio_protocol_transfer, hsz, hp]

/-- Characterization of the pending flag after a transfer that reached
the direction dispatch: the flag is cleared exactly when the handler
returned success or the invoked host execution failed. -/
theorem transfer_pending_after (info : GbSdioInfo) (env : SdioEnv)
    (req : SdioTransferRequest)
    (hsz : gb_sdio_transfer_request_size ≤ req.payload_size)
    (hp : info.has_deferred_cmd = true) :
    ((gb_sdio_protocol_transfer info env req).info.has_deferred_cmd = false ↔
      ((gb_sdio_protocol_transfer info env req).status = GbOpResult.success ∨
        ((gb_sdio_protocol_transfer info env req).invoked = true ∧
          env.sdhcRet ≠ 0))) := by
  have hsz' : ¬ req.payload_size < gb_sdio_transfer_request_size :=
    Nat.not_lt.mpr hsz
  simp only [gb_sdio_protocol_transfer, hsz', if_false, hp]
  split_ifs <;> simp_all [gb_errno_to_op_result]

/-! ## Claims -/

/-- C1 (amended): for every SDIO transfer operation that reaches the
direction dispatch (payload large enough, deferred command pending),
the pending flag is false after the handler returns exactly when the
handler returned success or the invoked host execution failed; on an
allocation failure or an unset direction flag the handler returns
NoMemory/Invalid and the flag remains set. -/
theorem C1_transfer_pending_cleared_iff (info : GbSdioInfo)
    (env : SdioEnv) (req : SdioTransferRequest)
    (hsz : gb_sdio_transfer_request_size ≤ req.payload_size)
    (hp : info.has_deferred_cmd = true) :
    ((gb_sdio_protocol_transfer info env req).info.has_deferred_cmd = false ↔
      ((gb_sdio_protocol_transfer info env req).status = GbOpResult.success ∨
        ((gb_sdio_protocol_transfer info env req).invoked = true ∧
          env.sdhcRet ≠ 0))) :=
  transfer_pending_after info env req hsz hp

/-- C1 counterexample: a transfer with an adequate payload and a
pending deferred command but an unset direction flag (neither read nor
write) returns `Invalid` with the pending flag still set — the claim
that the flag is false after the handler returns whatever the result
status is false on the code. -/
theorem C1_counterexample :
    (gb_sdio_protocol_transfer ⟨⟨17, 0, .r1⟩, true⟩ ⟨0, 0, 0, 0, 0, true⟩
        ⟨0, 1, 512, 16⟩).status = GbOpResult.invalid ∧
    (gb_sdio_protocol_transfer ⟨⟨17, 0, .r1⟩, true⟩ ⟨0, 0, 0, 0, 0, true⟩
        ⟨0, 1, 512, 16⟩).info.has_deferred_cmd = true := by
  decide

/-- C1 witness: a pending write transfer whose host execution succeeds
and whose allocation succeeds clears the pending flag. -/
theorem C1_witness :
    (gb_sdio_protocol_transfer ⟨⟨17, 0, .r1⟩, true⟩ ⟨0, 1, 2, 3, 4, true⟩
        ⟨1, 1, 8, 16⟩).info.has_deferred_cmd = false := by
  have h := C1_transfer_pending_cleared_iff ⟨⟨17, 0, .r1⟩, true⟩
    ⟨0, 1, 2, 3, 4, true⟩ ⟨1, 1, 8, 16⟩ (by decide) (by decide)
  exact h.mpr (Or.inl (by decide))

/-- C7: a transfer with no pending command is `Invalid` without
invoking the capability interface, allocating, or touching state;
and after any transfer that executed the deferred command and either
returned success or saw the host fail, a subsequent transfer with no
intervening command is again `Invalid` without invoking the host. -/
theorem C7_transfer_pending_protocol :
    (∀ (info : GbSdioInfo) (env : SdioEnv) (req : SdioTransferRequest),
      info.has_deferred_cmd = false →
      gb_sdio_protocol_transfer info env req =
        ⟨.invalid, info, false, none, none⟩) ∧
    (∀ (info : GbSdioInfo) (env1 : SdioEnv) (req1 : SdioTransferRequest)
        (env2 : SdioEnv) (req2 : SdioTransferRequest),
      gb_sdio_transfer_request_size ≤ req1.payload_size →
      (gb_sdio_protocol_transfer info env1 req1).invoked = true →
      ((gb_sdio_protocol_transfer info env1 req1).status = GbOpResult.success ∨
        env1.sdhcRet ≠ 0) →
      gb_sdio_protocol_transfer
          (gb_sdio_protocol_transfer info env1 req1).info env2 req2 =
        ⟨.invalid, (gb_sdio_protocol_transfer info env1 req1).info,
          false, none, none⟩) := by
  constructor
  · exact fun info env req hp => transfer_no_pending info env req hp
  · intro info env1 req1 env2 req2 hsz hinv hcase
    have hp : info.has_deferred_cmd = true := by
      by_contra hfalse
      have hp' : info.has_deferred_cmd = false := by
        cases h : info.has_deferred_cmd
        · rfl
        · exact absurd h hfalse
      have := transfer_no_pending info env1 req1 hp'
      rw [this] at hinv
      exact Bool.false_ne_true hinv
    have hchar := transfer_pending_after info env1 req1 hsz hp
    have hcleared : (gb_sdio_protocol_transfer info env1 req1).info.has_deferred_cmd = false := by
      apply hchar.mpr
      rcases hcase with h | h
      · exact Or.inl h
      · exact Or.inr ⟨hinv, h⟩
    exact transfer_no_pending _ env2 req2 hcleared

/-- C7 witness: a transfer against a fresh (non-pending) adapter is
`Invalid`, and after a pending write transfer whose host execution
fails, the next transfer is `Invalid` again. -/
theorem C7_witness :
    (gb_sdio_protocol_transfer ⟨⟨0, 0, .rspNone⟩, false⟩
        ⟨0, 0, 0, 0, 0, true⟩ ⟨2, 1, 512, 16⟩).status = GbOpResult.invalid ∧
    (gb_sdio_protocol_transfer
        (gb_sdio_protocol_transfer ⟨⟨5, 7, .r1b⟩, true⟩ ⟨-5, 0, 0, 0, 0, true⟩
          ⟨1, 1, 8, 16⟩).info
        ⟨0, 0, 0, 0, 0, true⟩ ⟨1, 1, 8, 16⟩).status = GbOpResult.invalid := by
  constructor
  · rw [C7_transfer_pending_protocol.1 ⟨⟨0, 0, .rspNone⟩, false⟩
      ⟨0, 0, 0, 0, 0, true⟩ ⟨2, 1, 512, 16⟩ (by decide)]
  · rw [C7_transfer_pending_protocol.2 ⟨⟨5, 7, .r1b⟩, true⟩
      ⟨-5, 0, 0, 0, 0, true⟩ ⟨1, 1, 8, 16⟩ ⟨0, 0, 0, 0, 0, true⟩
      ⟨1, 1, 8, 16⟩ (by decide) (by decide) (Or.inr (by decide))]

/-- C8: every payload-reading handler (HID get_report and set_report;
SDIO set_ios, command, transfer; USB hub_control) applied to a request
whose payload is shorter than the protocol-defined minimum for that
operation type returns `Invalid`, allocates no response, invokes no
capability call, and leaves all adapter state unchanged. -/
theorem C8_short_payload_invalid :
    (∀ (env : HidGetReportEnv) (req : HidGetReportRequest),
      req.payload_size < gb_hid_get_report_request_size →
      gb_hid_get_report env req = ⟨.invalid, none⟩) ∧
    (∀ (env : HidSetReportEnv) (req : HidSetReportRequest),
      req.payload_size < gb_hid_set_report_request_size →
      gb_hid_set_report env req = ⟨.invalid, false, none⟩) ∧
    (∀ (setIoRet : Int) (req : SdioSetIosRequest),
      req.payload_size < gb_sdio_set_ios_request_size →
      gb_sdio_protocol_set_ios setIoRet req = ⟨.invalid, false, none⟩) ∧
    (∀ (info : GbSdioInfo) (env : SdioEnv) (req : SdioCommandRequest),
      req.payload_size < gb_sdio_command_request_size →
      gb_sdio_protocol_command info env req =
        ⟨.invalid, info, false, none, none⟩) ∧
    (∀ (info : GbSdioInfo) (env : SdioEnv) (req : SdioTransferRequest),
      req.payload_size < gb_sdio_transfer_request_size →
      gb_sdio_protocol_transfer info env req =
        ⟨.invalid, info, false, none, none⟩) ∧
    (∀ (allocOk : Bool) (req : UsbHubControlRequest),
      req.payload_size < gb_usb_hub_control_request_size →
      gb_usb_hub_control allocOk req = ⟨.invalid, none⟩) := by
  refine ⟨?_, ?_, ?_, ?_, ?_, ?_⟩
  · intro env req h
    simp [gb_hid_get_report, h]
  · intro env req h
    simp [gb_hid_set_report, h]
  · intro r req h
    simp [gb_sdio_protocol_set_ios, h]
  · intro info env req h
    simp [gb_sdio_protocol_command, h]
  · intro info env req h
    simp [gb_sdio_protocol_transfer, h]
  · intro ok req h
    simp [gb_usb_hub_control, h]

/-- C8 witness: each of the six handlers rejects an empty payload. -/
theorem C8_witness :
    gb_hid_get_report ⟨true, true, true, true, 8, true, 0, true⟩ ⟨1, 1, 0⟩ =
      ⟨.invalid, none⟩ ∧
    gb_hid_set_report ⟨true, true, true, true, true, 8, 0⟩ ⟨1, 1, 0⟩ =
      ⟨.invalid, false, none⟩ ∧
    gb_sdio_protocol_set_ios 0 ⟨400000, 1, 2, 2, 0, 0, 0⟩ =
      ⟨.invalid, false, none⟩ ∧
    gb_sdio_protocol_command ⟨⟨0, 0, .rspNone⟩, false⟩ ⟨0, 0, 0, 0, 0, true⟩
        ⟨17, 1, 0, 0, 0⟩ = ⟨.invalid, ⟨⟨0, 0, .rspNone⟩, false⟩, false, none, none⟩ ∧
    gb_sdio_protocol_transfer ⟨⟨0, 0, .rspNone⟩, true⟩ ⟨0, 0, 0, 0, 0, true⟩
        ⟨1, 1, 8, 0⟩ = ⟨.invalid, ⟨⟨0, 0, .rspNone⟩, true⟩, false, none, none⟩ ∧
    gb_usb_hub_control true ⟨0, 0, 0, 64, 0⟩ = ⟨.invalid, none⟩ := by
  refine ⟨?_, ?_, ?_, ?_, ?_, ?_⟩
  · exact C8_short_payload_invalid.1 _ _ (by decide)
  · exact C8_short_payload_invalid.2.1 _ _ (by decide)
  · exact C8_short_payload_invalid.2.2.1 _ _ (by decide)
  · exact C8_short_payload_invalid.2.2.2.1 _ _ _ (by decide)
  · exact C8_short_payload_invalid.2.2.2.2.1 _ _ _ (by decide)
  · exact C8_short_payload_invalid.2.2.2.2.2 _ _ (by decide)

/-- C2 (amended): calling HID get_report_descriptor on a fresh adapter
instance (no get_descriptor yet, cached length 0) performs no
cached-length check: with the capability entry present and the
allocation and the capability call succeeding, it allocates a
zero-length response and returns success; it fails only when a null
check fails, the allocation fails, or the capability call errors. -/
theorem C2_get_report_descriptor_uncached (env : HidReportDescEnv)
    (hb : env.bundlePresent = true) (hi : env.infoPresent = true)
    (hd : env.devPresent = true) (hapi : env.apiPresent = true)
    (he : env.entryPresent = true) (hr : env.callRet = 0)
    (ha : env.allocOk = true) :
    gb_hid_get_report_descriptor gb_hid_init_info env =
      ⟨.success, some 0⟩ := by
  simp [gb_hid_get_report_descriptor, gb_hid_init_info, hb, hi, hd,
    hapi, he, hr, ha]

/-- C2 counterexample: with the capability present and succeeding and
the allocation succeeding, get_report_descriptor on a fresh adapter
returns success — the claim that it returns a failure status, never
success, is false on the code. -/
theorem C2_counterexample :
    (gb_hid_get_report_descriptor gb_hid_init_info
        ⟨true, true, true, true, true, 0, true⟩).status =
      GbOpResult.success := by
  decide

/-- C2 witness: the amended theorem at a concrete benign environment. -/
theorem C2_witness :
    gb_hid_get_report_descriptor gb_hid_init_info
        ⟨true, true, true, true, true, 0, true⟩ = ⟨.success, some 0⟩ :=
  C2_get_report_descriptor_uncached ⟨true, true, true, true, true, 0, true⟩
    rfl rfl rfl rfl rfl rfl rfl

/-- C3: for every USB hub_control operation with an adequate payload,
the handler requests a response allocation of the fixed response header
size plus the request's declared (16-bit) wLength, and — the root-hub
control capability being absent — never returns success: when the
allocation succeeds, it reports the unsupported operation as
`GB_OP_UNKNOWN_ERROR` (the taxonomy member for an absent capability);
when the allocation fails, `GB_OP_NO_MEMORY`. -/
theorem C3_hub_control_not_supported (allocOk : Bool)
    (req : UsbHubControlRequest)
    (hsz : gb_usb_hub_control_request_size ≤ req.payload_size) :
    (gb_usb_hub_control allocOk req).alloc =
      some (gb_usb_hub_control_response_size + req.wLength % 65536) ∧
    (gb_usb_hub_control allocOk req).status ≠ GbOpResult.success ∧
    (allocOk = true →
      (gb_usb_hub_control allocOk req).status = GbOpResult.unknownError) := by
  have hsz' : ¬ req.payload_size < gb_usb_hub_control_request_size :=
    Nat.not_lt.mpr hsz
  cases allocOk <;>
    simp [gb_usb_hub_control, usb_decode_setup, hsz']

/-- C3 witness: a hub_control request declaring wLength 64 allocates
header + 64 bytes and reports the unsupported capability. -/
theorem C3_witness :
    (gb_usb_hub_control true ⟨0x0680, 0x0100, 0, 64, 8⟩).alloc =
      some (gb_usb_hub_control_response_size + 64) ∧
    (gb_usb_hub_control true ⟨0x0680, 0x0100, 0, 64, 8⟩).status =
      GbOpResult.unknownError := by
  have h := C3_hub_control_not_supported true ⟨0x0680, 0x0100, 0, 64, 8⟩
    (by decide)
  exact ⟨h.1, h.2.2 rfl⟩

/-- C4: the claim says a non-positive `get_report_length` return makes
set_report fail `UnknownError` without invoking the capability
`set_report`; the code stores the `int` return into a `uint16_t` before
the `<= 0` test, so the negative return -1 is truncated to 65535,
passes the test, and the capability `set_report` IS invoked (here
succeeding, so the handler even returns success) — the code contradicts
the claimed check, which its sibling `get_report` performs correctly on
the `int`. -/
theorem C4_code_bug_eval :
    gb_hid_set_report ⟨true, true, true, true, true, -1, 0⟩ ⟨1, 0, 8⟩ =
      ⟨GbOpResult.success, true, some 65535⟩ := by
  decide

/-- C5 (amended): for every payload-budget constant, when the
host-properties query and the response allocation succeed, the computed
maximum block transfer size equals the largest element of
{512, 1024, 2048} that is at most the (16-bit) budget minus the
transfer-response header; the handler returns Invalid exactly when even
512 exceeds that budget; and on success it reports max_blk_size = 512
and max_blk_count = computed maximum / 512. -/
theorem C5_get_capabilities_amended (maxPayload : Nat)
    (env : SdioCapsEnv) (hp : env.propsRet = 0) (ha : env.allocOk = true) :
    ((gb_sdio_protocol_get_capabilities maxPayload env).status =
        GbOpResult.invalid ↔ sdio_caps_budget maxPayload < 512) ∧
    (512 ≤ sdio_caps_budget maxPayload →
      (gb_sdio_protocol_get_capabilities maxPayload env).status =
          GbOpResult.success ∧
      (gb_sdio_protocol_get_capabilities maxPayload env).max_blk_size =
          some 512 ∧
      (gb_sdio_protocol_get_capabilities maxPayload env).max_blk_count =
          some (spec_largest_block_at_most (sdio_caps_budget maxPayload) / 512)) := by
  simp only [gb_sdio_protocol_get_capabilities, hp, ha,
    scale_eq_largest_at_most]
  constructor
  · constructor
    · intro h
      by_contra hc
      push_neg at hc
      simp only [spec_largest_block_at_most] at h
      split_ifs at h
      simp_all
    · intro h
      have hz : spec_largest_block_at_most (sdio_caps_budget maxPayload) = 0 := by
        simp only [spec_largest_block_at_most]
        split_ifs <;> omega
      simp [hz]
  · intro h
    have hz : spec_largest_block_at_most (sdio_caps_budget maxPayload) ≠ 0 := by
      simp only [spec_largest_block_at_most]
      split_ifs <;> omega
    simp [hz]

/-- C5 counterexample: with a payload budget of 1028 the budget minus
the 4-byte transfer-response header is exactly 1024; the code reports
max_blk_count = 1024/512 = 2 on success, while the largest element of
{512, 1024, 2048} strictly below 1024 is 512 (count 1) — the claim's
"strictly below" characterization is false on the code at boundary
budgets. -/
theorem C5_counterexample :
    (gb_sdio_protocol_get_capabilities 1028
        ⟨0, true, true, true, true, 400000, 25000000, true⟩).status =
      GbOpResult.success ∧
    (gb_sdio_protocol_get_capabilities 1028
        ⟨0, true, true, true, true, 400000, 25000000, true⟩).max_blk_count =
      some 2 ∧
    spec_largest_block_strictly_below
        (1028 - gb_sdio_transfer_response_size) / 512 = 1 := by
  decide

/-- C5 witness: the amended theorem at a budget of 2040 (computed
maximum 1024, count 2). -/
theorem C5_witness :
    (gb_sdio_protocol_get_capabilities 2040
        ⟨0, true, false, true, true, 400000, 25000000, true⟩).status =
      GbOpResult.success ∧
    (gb_sdio_protocol_get_capabilities 2040
        ⟨0, true, false, true, true, 400000, 25000000, true⟩).max_blk_count =
      some 2 := by
  have h := (C5_get_capabilities_amended 2040
    ⟨0, true, false, true, true, 400000, 25000000, true⟩ rfl rfl).2
    (by decide)
  refine ⟨h.1, ?_⟩
  rw [h.2.2]
  decide

/-- C6: for every SDIO command with an adequate payload: with zero
data blocks the command is executed immediately against the capability
interface, the adapter state is untouched, and (host and allocation
succeeding) the response carries the host's four raw response words;
with one or more data blocks the capability interface is not invoked,
the decoded command is stored as the deferred command with the pending
flag set, and (allocation succeeding) a synthesized R1 "ready for
data" response (word 0 = 0x00000900) is returned. -/
theorem C6_command_immediate_vs_deferred (info : GbSdioInfo)
    (env : SdioEnv) (req : SdioCommandRequest)
    (hsz : gb_sdio_command_request_size ≤ req.payload_size) :
    (req.data_blocks % 65536 = 0 →
      (gb_sdio_protocol_command info env req).invoked = true ∧
      (gb_sdio_protocol_command info env req).info = info ∧
      (env.sdhcRet = 0 → env.allocOk = true →
        (gb_sdio_protocol_command info env req).status = GbOpResult.success ∧
        (gb_sdio_protocol_command info env req).resp =
          some (env.r0, env.r1, env.r2, env.r3))) ∧
    (0 < req.data_blocks % 65536 →
      (gb_sdio_protocol_command info env req).invoked = false ∧
      (gb_sdio_protocol_command info env req).info =
        ⟨sdio_build_cmd req, true⟩ ∧
      (env.allocOk = true →
        (gb_sdio_protocol_command info env req).status = GbOpResult.success ∧
        (gb_sdio_protocol_command info env req).resp =
          some (0x00000900, 0, 0, 0))) := by
  have hsz' : ¬ req.payload_size < gb_sdio_command_request_size :=
    Nat.not_lt.mpr hsz
  constructor
  · intro hz
    have hnz : ¬ (req.data_blocks % 65536 > 0) := by omega
    simp only [gb_sdio_protocol_command, hsz', if_false]
    rw [if_neg hnz]
    refine ⟨?_, ?_, ?_⟩
    · split_ifs <;> rfl
    · split_ifs <;> rfl
    · intro hret hok
      rw [if_neg (by simp [hret]), if_pos hok]
      exact ⟨rfl, rfl⟩
  · intro hz
    simp only [gb_sdio_protocol_command, hsz', if_false]
    rw [if_pos hz]
    refine ⟨?_, ?_, ?_⟩
    · split_ifs <;> rfl
    · split_ifs <;> rfl
    · intro hok
      rw [if_pos hok]
      exact ⟨rfl, rfl⟩

/-- C6 witness: a command declaring 0 data blocks executes immediately
and returns the host words; a command declaring 1 data block defers,
sets the pending flag, and returns the synthesized ready word. -/
theorem C6_witness :
    (gb_sdio_protocol_command ⟨⟨0, 0, .rspNone⟩, false⟩
        ⟨0, 10, 11, 12, 13, true⟩ ⟨13, 1, 7, 0, 16⟩).resp =
      some (10, 11, 12, 13) ∧
    (gb_sdio_protocol_command ⟨⟨0, 0, .rspNone⟩, false⟩
        ⟨0, 10, 11, 12, 13, true⟩ ⟨18, 1, 9, 1, 16⟩).info.has_deferred_cmd =
      true ∧
    (gb_sdio_protocol_command ⟨⟨0, 0, .rspNone⟩, false⟩
        ⟨0, 10, 11, 12, 13, true⟩ ⟨18, 1, 9, 1, 16⟩).resp =
      some (0x00000900, 0, 0, 0) := by
  have h0 := (C6_command_immediate_vs_deferred ⟨⟨0, 0, .rspNone⟩, false⟩
    ⟨0, 10, 11, 12, 13, true⟩ ⟨13, 1, 7, 0, 16⟩ (by decide)).1 (by decide)
  have h1 := (C6_command_immediate_vs_deferred ⟨⟨0, 0, .rspNone⟩, false⟩
    ⟨0, 10, 11, 12, 13, true⟩ ⟨18, 1, 9, 1, 16⟩ (by decide)).2 (by decide)
  refine ⟨(h0.2.2 rfl rfl).2, ?_, (h1.2.2 rfl).2⟩
  rw [h1.2.1]

/-- C9 (amended): for every HID get_report operation that succeeds, the
allocated response length equals the capability-reported length reduced
modulo 2^16, plus one prefix byte when report_id is nonzero (again in
16-bit arithmetic) — the positive `int` length is stored into a
`uint16_t`, so lengths of 65536 and above are truncated. -/
theorem C9_get_report_alloc_len (env : HidGetReportEnv)
    (req : HidGetReportRequest)
    (h : (gb_hid_get_report env req).status = GbOpResult.success) :
    (gb_hid_get_report env req).alloc =
      some ((env.getReportLengthRet.toNat % 65536 +
        (if req.report_id > 0 then 1 else 0)) % 65536) := by
  unfold gb_hid_get_report at h ⊢
  split_ifs at h ⊢ <;> simp_all

/-- C9 counterexample: a capability reporting length 65536 (a positive
C `int`) passes the positivity check but is truncated to 0 by the
`uint16_t` store; with report_id 0 the handler succeeds having
allocated a 0-byte response, not a 65536-byte one — the claim that the
allocated length equals the capability-reported length is false on the
code. -/
theorem C9_counterexample :
    (gb_hid_get_report ⟨true, true, true, true, 65536, true, 0, true⟩
        ⟨1, 0, 4⟩).status = GbOpResult.success ∧
    (gb_hid_get_report ⟨true, true, true, true, 65536, true, 0, true⟩
        ⟨1, 0, 4⟩).alloc = some 0 := by
  decide

/-- C9 witness: a capability length of 3 with a nonzero report id
allocates 3 + 1 = 4 bytes. -/
theorem C9_witness :
    (gb_hid_get_report ⟨true, true, true, true, 3, true, 0, true⟩
        ⟨1, 1, 4⟩).alloc = some 4 := by
  have h := C9_get_report_alloc_len
    ⟨true, true, true, true, 3, true, 0, true⟩ ⟨1, 1, 4⟩ (by decide)
  rw [h]
  decide

/-- C10: the HID report callback rejects every report longer than the
256-byte inline message buffer with -EINVAL and enqueues nothing,
whatever the current queue contents. -/
theorem C10_oversized_report_rejected (q : List HidMsgData)
    (report_type : Nat) (report : List Nat)
    (h : hid_msg_data_capacity < report.length) :
    hid_event_callback_routine q report_type report = (-22, q) := by
  simp [hid_event_callback_routine, h]

/-- C10 witness: a 257-byte report is rejected and a full queue is left
unchanged. -/
theorem C10_witness :
    hid_event_callback_routine
        (List.replicate 5 ⟨0, 0, []⟩) 0 (List.replicate 257 0) =
      (-22, List.replicate 5 ⟨0, 0, []⟩) :=
  C10_oversized_report_rejected (List.replicate 5 ⟨0, 0, []⟩) 0
    (List.replicate 257 0)
    (by simp only [hid_msg_data_capacity, List.length_replicate]; omega)

end Greybus
